import Mathlib

/-!
Verification of the Sunflower mirroring engine.

The mirroring module (`sunflower/application/tasks/mirroring.py`) is not
present in the source tree; only its unit tests and its caller
(`sunflower/infrastructure/sanic/bootstrap.py`) are.  The definitions below
therefore embed the engine as the specification describes it, with the
behaviour pinned wherever the unit tests under
`tests/unit/application/tasks/test_mirroring.py` observe it.  The bootstrap
registration logic is embedded directly from
`sunflower/infrastructure/sanic/bootstrap.py`.
-/

/-- Modelled from the spec: the engine sees a `Galleryinfo` only through its
integer `id`, deep structural equality, and the `Info` derivation (§3).  The
`title` field stands for the rest of the record, so that two records can
differ structurally while sharing an id. -/
structure Galleryinfo where
  id : Nat
  title : String
  deriving Repr, DecidableEq

/-- Modelled from the spec: an `Info` is derived from a `Galleryinfo` and is
identified by the same `id` (§3). -/
structure Info where
  id : Nat
  title : String
  deriving Repr, DecidableEq

/-- Modelled from the spec: the pure, deterministic `Info ← Galleryinfo`
projection (§6). -/
def Info.from_galleryinfo (g : Galleryinfo) : Info :=
  ⟨g.id, g.title⟩

/-- Modelled from the spec: the remote fetch may fail with
`GalleryinfoNotFound` (§6, §7). -/
inductive GError where
  | galleryinfoNotFound (msg : String)
  deriving Repr, DecidableEq

/-- Modelled from the spec: the Status Record (§3), with the field list
matching `MirroringStatus` as observed by `test_mirroring_status_default`. -/
@[ext]
structure MirroringStatus where
  index_files : List String
  total_items : Nat
  batch_total : Nat
  batch_completed : Nat
  items_processed : Nat
  is_mirroring_galleryinfo : Bool
  is_converting_to_info : Bool
  is_checking_integrity : Bool
  last_checked_at : String
  last_mirrored_at : String
  deriving Repr, DecidableEq

/-- Modelled from the spec: `default()` returns a zero-valued record (§4.2),
as observed by `test_mirroring_status_default`. -/
def MirroringStatus.default : MirroringStatus :=
  ⟨[], 0, 0, 0, 0, false, false, false, "", ""⟩

/-- Modelled from the spec: `reset()` zeroes `total_items`, `batch_total` and
`batch_completed` (§4.2), exactly the three fields checked by
`test_mirroring_status_reset`; `items_processed` is not zeroed, which is what
`test_process_in_jobs_remote` observes (`items_processed == 5` after the
pipeline returns). -/
def MirroringStatus.reset (s : MirroringStatus) : MirroringStatus :=
  { s with total_items := 0, batch_total := 0, batch_completed := 0 }

/-- Modelled from the spec: the batch splitter `_get_splited_id` (§4.3)
produces contiguous chunks of length `size`, the last chunk possibly short;
`splitGo` carries the list length as structural fuel (one chunk consumes at
least one element whenever `size ≠ 0`). -/
def splitGo (fuel : Nat) (ids : List Nat) (size : Nat) : List (List Nat) :=
  match fuel, ids with
  | _, [] => []
  | 0, _ => []
  | fuel + 1, ids => ids.take size :: splitGo fuel (ids.drop size) size

/-- Modelled from the spec: `split(ids, size)`; for `size = 0` the behaviour
is undefined by the spec (§4.3) and the embedding returns the empty sequence,
one of the outcomes `test_get_splited_id_zero_size_error` accepts. -/
def getSplitedId (ids : List Nat) (size : Nat) : List (List Nat) :=
  if size = 0 then [] else splitGo ids.length ids size

/-- Modelled from the spec: the concurrency budgets, which double as batch
sizes (§4.6); defaults 50 and 25 as `test_mirroring_task_init` checks. -/
structure TaskConfig where
  REMOTE_CONCURRENT_SIZE : Nat
  LOCAL_CONCURRENT_SIZE : Nat
  deriving Repr, DecidableEq

def defaultTaskConfig : TaskConfig :=
  ⟨50, 25⟩

/-- Modelled from the spec: one successful batch of `_process_in_jobs`
increments `batch_completed` by 1 and `items_processed` by the batch length
(§4.6). -/
def batchStep (st : MirroringStatus) (b : List Nat) : MirroringStatus :=
  { st with
    batch_completed := st.batch_completed + 1
    items_processed := st.items_processed + b.length }

/-- Modelled from the spec: `_process_in_jobs(ids, worker, is_remote)` (§4.6):
pick the budget, split `ids` into chunks, initialise `total_items`,
`batch_total`, `batch_completed`, `items_processed`, run every batch, and
finally call `status.reset()`.  The worker itself is effect-free on the
status record, so only the status evolution is embedded here. -/
def processInJobs (t : TaskConfig) (s : MirroringStatus) (ids : List Nat)
    (is_remote : Bool) : MirroringStatus :=
  let size := if is_remote then t.REMOTE_CONCURRENT_SIZE else t.LOCAL_CONCURRENT_SIZE
  let batches := getSplitedId ids size
  let s1 := { s with
    total_items := ids.length
    batch_total := batches.length
    batch_completed := 0
    items_processed := 0 }
  let s2 := batches.foldl batchStep s1
  s2.reset

/-- Modelled from the spec: `_get_differences(source, target)` awaits both
id collections, treats them as sets and returns `source \ target`
materialised as a tuple (§4.4); `dedup` reflects the set semantics of
`tuple(set(source) - set(target))`. -/
def getDifferences (source target : List Nat) : List Nat :=
  (source.filter (fun x => !target.contains x)).dedup

/-- Modelled from the spec: `_preprocess(fetch_fn, requested_id)` (§4.5):
await the fetch, force the record's `id` to the requested id, return it;
a `GalleryinfoNotFound` from the fetch propagates unchanged. -/
def preprocess (fetch : Nat → Except GError Galleryinfo) (id : Nat) :
    Except GError Galleryinfo :=
  match fetch id with
  | .error e => .error e
  | .ok g => .ok { g with id := id }

/-! ### Basic lemmas about the pipeline status evolution -/

theorem foldl_batchStep (batches : List (List Nat)) (st : MirroringStatus) :
    batches.foldl batchStep st =
      { st with
        batch_completed := st.batch_completed + batches.length
        items_processed := st.items_processed + (batches.map List.length).sum } := by
  induction batches generalizing st with
  | nil => simp
  | cons b bs ih =>
      simp only [List.foldl_cons, ih, batchStep, List.length_cons, List.map_cons,
        List.sum_cons]
      congr 1
      · omega
      · omega

theorem splitGo_sum_length (fuel : Nat) (ids : List Nat) (size : Nat)
    (hs : size ≠ 0) (hf : ids.length ≤ fuel) :
    ((splitGo fuel ids size).map List.length).sum = ids.length := by
  induction fuel generalizing ids with
  | zero =>
      cases ids with
      | nil => simp [splitGo]
      | cons a l => simp at hf
  | succ n ih =>
      cases ids with
      | nil => simp [splitGo]
      | cons a l =>
          have hrec : ((a :: l).drop size).length ≤ n := by
            have : ((a :: l).drop size).length = (a :: l).length - size := by
              simp
            omega
          simp only [splitGo, List.map_cons, List.sum_cons, ih _ hrec]
          have : ((a :: l).take size).length = min size (a :: l).length := by
            simp
          have hlen : ((a :: l).drop size).length = (a :: l).length - size := by
            simp
          omega

theorem getSplitedId_sum_length (ids : List Nat) (size : Nat) (hs : size ≠ 0) :
    ((getSplitedId ids size).map List.length).sum = ids.length := by
  unfold getSplitedId
  rw [if_neg hs]
  exact splitGo_sum_length ids.length ids size hs le_rfl

/-- Full characterisation of the status after one pipeline run: the three
counters zeroed by `reset`, and `items_processed` left at the total number of
items the batches carried. -/
theorem processInJobs_eq (t : TaskConfig) (s : MirroringStatus) (ids : List Nat)
    (is_remote : Bool) :
    processInJobs t s ids is_remote =
      { s with
        total_items := 0
        batch_total := 0
        batch_completed := 0
        items_processed :=
          ((getSplitedId ids
            (if is_remote then t.REMOTE_CONCURRENT_SIZE
             else t.LOCAL_CONCURRENT_SIZE)).map List.length).sum } := by
  unfold processInJobs
  simp only [foldl_batchStep, MirroringStatus.reset]
  simp

/-! ### The mirror stage -/

/-- Modelled from the spec: which worker a pipeline invocation carries
(§4.7). -/
inductive Worker where
  | fetchGalleryinfo
  | fetchInfo
  | integrity
  deriving Repr, DecidableEq

/-- One recorded invocation of the batched pipeline `_process_in_jobs`. -/
structure PipelineCall where
  ids : List Nat
  is_remote : Bool
  worker : Worker
  deriving Repr, DecidableEq

/-- Modelled from the spec: `perform_mirroring()` (§4.7).  The two
differences are supplied by the environment (`_get_differences` is awaited
twice).  Step 1 runs the remote pipeline over `remote_diff` only when it is
non-empty (`test_perform_mirroring_no_differences` observes a single pipeline
call when both differences are empty); step 2 runs the local pipeline over
`local_diff` when non-empty and then sets `last_mirrored_at := now()`;
step 3 always runs the integrity pipeline over `local_diff`
(`test_perform_mirroring_integrity_check_with_empty_local_differences`).
The returned list records every pipeline invocation in order. -/
def performMirroring (t : TaskConfig) (s : MirroringStatus)
    (remote_diff local_diff : List Nat) (nowTime : String) :
    MirroringStatus × List PipelineCall :=
  let step1 :=
    if remote_diff.isEmpty then (s, ([] : List PipelineCall))
    else
      let sa := { s with is_mirroring_galleryinfo := true }
      let sb := processInJobs t sa remote_diff true
      let sc := { sb with is_mirroring_galleryinfo := false }
      (sc, [⟨remote_diff, true, Worker.fetchGalleryinfo⟩])
  let step2 :=
    if local_diff.isEmpty then step1
    else
      let sa := { step1.1 with is_converting_to_info := true }
      let sb := processInJobs t sa local_diff false
      let sc := { sb with is_converting_to_info := false, last_mirrored_at := nowTime }
      (sc, step1.2 ++ [⟨local_diff, false, Worker.fetchInfo⟩])
  let sa := { step2.1 with is_checking_integrity := true }
  let sb := processInJobs t sa local_diff false
  let sc := { sb with is_checking_integrity := false }
  (sc, step2.2 ++ [⟨local_diff, false, Worker.integrity⟩])

/-! ### The integrity checker -/

/-- Observable store and log operations of one integrity check. -/
inductive StoreOp where
  | warn (id : Nat)
  | deleteRelational (id : Nat)
  | deleteDocument (id : Nat)
  | createRelational (g : Galleryinfo)
  | createDocument (i : Info)
  deriving Repr, DecidableEq

/-- Whether an operation mutates one of the two stores (a log line does
not). -/
def StoreOp.isMutation : StoreOp → Bool
  | .warn _ => false
  | _ => true

/-- Modelled from the spec: the repositories the integrity checker consults:
the remote fetch (which may fail with `GalleryinfoNotFound`) and the local
relational lookup (§4.8, §6). -/
structure IntegrityEnv where
  remoteFetch : Nat → Except GError Galleryinfo
  localGet : Nat → Galleryinfo

/-- Modelled from the spec: `skip_ids.add(id)` on a Python set, embedded on a
duplicate-free list. -/
def addSkip (skip : List Nat) (id : Nat) : List Nat :=
  if id ∈ skip then skip else skip ++ [id]

/-- Modelled from the spec: `_integrity_check` for a single id (§4.8): fetch
the upstream record through `_preprocess`; on `GalleryinfoNotFound` add the
id to the skip-list, log a warning and touch no store; otherwise compare the
upstream record with the local one by deep structural equality and, on a
non-empty diff, log a warning and run delete-relational, delete-document,
create-relational, create-document in that order. -/
def integrityCheckOne (env : IntegrityEnv) (skip : List Nat) (id : Nat) :
    List Nat × List StoreOp :=
  match preprocess env.remoteFetch id with
  | .error _ => (addSkip skip id, [StoreOp.warn id])
  | .ok remote =>
      let l := env.localGet id
      if remote = l then (skip, [])
      else
        (skip,
          [StoreOp.warn id, StoreOp.deleteRelational id, StoreOp.deleteDocument id,
           StoreOp.createRelational remote,
           StoreOp.createDocument (Info.from_galleryinfo remote)])

/-- Modelled from the spec: `_integrity_check` over an id tuple (§4.8):
every id is processed, a `GalleryinfoNotFound` never aborts the remaining
ids. -/
def integrityCheck (env : IntegrityEnv) (skip : List Nat) :
    List Nat → List Nat × List StoreOp
  | [] => (skip, [])
  | id :: rest =>
      let one := integrityCheckOne env skip id
      let more := integrityCheck env one.1 rest
      (more.1, one.2 ++ more.2)

/-! ### The periodic drivers -/

/-- Modelled from the spec: an unhandled error of a pipeline run (§7, kind
3); the payload is only a label. -/
structure PErr where
  msg : String
  deriving Repr, DecidableEq

/-- Modelled from the spec: the engine state the drivers share: the Status
Record and the process-lifetime skip-list (§3). -/
structure EngineState where
  status : MirroringStatus
  skip_ids : List Nat
  deriving Repr, DecidableEq

/-- Modelled from the spec: the world one driver tick interacts with: the
two differences a mirror pass computes, the document-store id listing, the
clock, the integrity repositories, and the outcome of the partial-check
pipeline run (`.error e` embeds a worker raising an unhandled error). -/
structure DriverEnv where
  remote_diff : List Nat
  local_diff : List Nat
  docIds : List Nat
  nowTime : String
  ienv : IntegrityEnv
  pipelineResult : Except PErr Unit

/-- Modelled from the spec: `perform_partial_integrity_check()` (§4.8):
collect the document-store ids, filter out skip-list members, set
`is_checking_integrity`, run the integrity pipeline over the remainder, and
clear the flag.  On an unhandled pipeline error the skip-list is emptied
before control surfaces back to the driver (§7); the returned flag is `true`
when the iteration raised. -/
def performPartialIntegrityCheck (env : DriverEnv) (st : EngineState) :
    EngineState × Bool :=
  let ids := env.docIds.filter (fun i => !st.skip_ids.contains i)
  match env.pipelineResult with
  | .error _ =>
      ({ status := { st.status with is_checking_integrity := false }
         skip_ids := [] }, true)
  | .ok _ =>
      let s1 := { st.status with is_checking_integrity := true }
      let s2 := processInJobs defaultTaskConfig s1 ids false
      let run := integrityCheck env.ienv st.skip_ids ids
      ({ status := { s2 with is_checking_integrity := false }
         skip_ids := run.1 }, false)

/-- Modelled from the spec: one iteration of the mirror driver loop
`start_mirroring` (§4.9): skip the body while `is_checking_integrity` is
true; otherwise record `last_checked_at := now()` and run
`perform_mirroring()`.  The boolean reports whether the body ran. -/
def mirroringTick (t : TaskConfig) (env : DriverEnv) (st : EngineState) :
    EngineState × Bool :=
  if st.status.is_checking_integrity then (st, false)
  else
    let s1 := { st.status with last_checked_at := env.nowTime }
    let s2 := (performMirroring t s1 env.remote_diff env.local_diff env.nowTime).1
    ({ st with status := s2 }, true)

/-- Modelled from the spec: one iteration of the partial integrity driver
loop `start_partial_integrity_check` (§4.9): skip the body while
`is_mirroring_galleryinfo or is_converting_to_info` is true; otherwise run
`perform_partial_integrity_check()` (whose unhandled errors the driver
absorbs before sleeping).  The boolean reports whether the body ran. -/
def partialIntegrityTick (env : DriverEnv) (st : EngineState) :
    EngineState × Bool :=
  if st.status.is_mirroring_galleryinfo || st.status.is_converting_to_info then
    (st, false)
  else
    ((performPartialIntegrityCheck env st).1, true)

/-! ### Bootstrap task registration

Embedded directly from `sunflower/infrastructure/sanic/bootstrap.py`,
`startup`, lines 117-136. -/

/-- The configuration flags `startup` consults when registering the periodic
tasks (`sunflower/infrastructure/sanic/config.py` / `bootstrap.py`). -/
structure SunflowerConfig where
  DISABLE_MIRRORING : Bool
  DISABLE_INTEGRITY_CHECK : Bool
  DISABLE_INTEGRITY_PARTIAL_CHECK : Bool
  DISABLE_INTEGRITY_FULL_CHECK : Bool
  deriving Repr, DecidableEq

/-- The three named tasks `startup` may register. -/
inductive TaskName where
  | mirroringTask
  | partialIntegrityCheck
  | fullIntegrityCheck
  deriving Repr, DecidableEq

/-- The task registrations `startup` performs (bootstrap.py lines 117-136):
nothing in test mode; otherwise the mirroring task unless
`DISABLE_MIRRORING`, and — only when `DISABLE_INTEGRITY_CHECK` is false —
the partial and full integrity tasks gated by their individual flags. -/
def startupRegisteredTasks (test_mode : Bool) (cfg : SunflowerConfig) :
    List TaskName :=
  if test_mode then []
  else
    (if !cfg.DISABLE_MIRRORING then [TaskName.mirroringTask] else []) ++
    (if !cfg.DISABLE_INTEGRITY_CHECK then
       (if !cfg.DISABLE_INTEGRITY_PARTIAL_CHECK then
          [TaskName.partialIntegrityCheck] else []) ++
       (if !cfg.DISABLE_INTEGRITY_FULL_CHECK then
          [TaskName.fullIntegrityCheck] else [])
     else [])

/-! ### Skip-list helper lemmas -/

theorem addSkip_self (skip : List Nat) (id : Nat) : id ∈ addSkip skip id := by
  unfold addSkip
  by_cases h : id ∈ skip <;> simp [h]

theorem addSkip_subset (skip : List Nat) (i x : Nat) (hx : x ∈ skip) :
    x ∈ addSkip skip i := by
  unfold addSkip
  by_cases h : i ∈ skip <;> simp [h, hx]

theorem integrityCheckOne_skip_mono (env : IntegrityEnv) (skip : List Nat)
    (i x : Nat) (hx : x ∈ skip) : x ∈ (integrityCheckOne env skip i).1 := by
  unfold integrityCheckOne
  cases h : preprocess env.remoteFetch i with
  | error e => simpa using addSkip_subset skip i x hx
  | ok g =>
      by_cases hd : g = env.localGet i <;> simp [hd, hx]

theorem integrityCheck_skip_mono (env : IntegrityEnv) (ids : List Nat) :
    ∀ skip : List Nat, ∀ x ∈ skip, x ∈ (integrityCheck env skip ids).1 := by
  induction ids with
  | nil => intro skip x hx; simpa [integrityCheck] using hx
  | cons i rest ih =>
      intro skip x hx
      simp only [integrityCheck]
      exact ih _ x (integrityCheckOne_skip_mono env skip i x hx)

/-! ### Claim theorems -/

/-- C1: `preprocess(f, n)` returns the record `f(n)` produced with its `id`
field set to `n`, whatever id the fetched record carried; in particular the
returned record's `id` equals `n`. -/
theorem preprocess_forces_requested_id (f : Nat → Except GError Galleryinfo)
    (n : Nat) (g : Galleryinfo) (h : f n = .ok g) :
    preprocess f n = .ok { g with id := n } ∧
      ∀ r : Galleryinfo, preprocess f n = .ok r → r.id = n := by
  have hp : preprocess f n = .ok { g with id := n } := by
    simp [preprocess, h]
  refine ⟨hp, ?_⟩
  intro r hr
  rw [hp] at hr
  cases hr
  rfl

theorem preprocess_forces_requested_id_witness :
    preprocess (fun _ => .ok ⟨999, "t"⟩) 12345 =
        .ok { (⟨999, "t"⟩ : Galleryinfo) with id := 12345 } ∧
      ∀ r : Galleryinfo,
        preprocess (fun _ => .ok ⟨999, "t"⟩) 12345 = .ok r → r.id = 12345 :=
  preprocess_forces_requested_id (fun _ => .ok ⟨999, "t"⟩) 12345 ⟨999, "t"⟩ rfl

/-- C2: in a `perform_mirroring` iteration the final pipeline invocation is
the integrity check over `local_diff` (never over `remote_diff`), it happens
even when `local_diff` is empty, and the total number of pipeline invocations
is one per non-empty difference plus the unconditional integrity pass — so
exactly three when both differences are non-empty. -/
theorem performMirroring_integrity_over_local_diff (t : TaskConfig)
    (s : MirroringStatus) (rd ld : List Nat) (nowT : String) :
    (performMirroring t s rd ld nowT).2.getLast? =
        some ⟨ld, false, Worker.integrity⟩ ∧
      (performMirroring t s rd ld nowT).2.length =
        (if rd.isEmpty then 0 else 1) + (if ld.isEmpty then 0 else 1) + 1 ∧
      (rd ≠ [] → ld ≠ [] → (performMirroring t s rd ld nowT).2.length = 3) := by
  cases hrd : rd.isEmpty <;> cases hld : ld.isEmpty <;>
    simp_all [performMirroring, List.isEmpty_iff]

/-- C3 (corrected claim): when `process_in_jobs(ids, worker, is_remote)`
returns normally, `total_items`, `batch_total` and `batch_completed` are
reset to 0, while `items_processed` is *not* reset: it is left at
`len(ids)`. -/
theorem processInJobs_reset_counters (t : TaskConfig) (s : MirroringStatus)
    (ids : List Nat) (is_remote : Bool)
    (h : (if is_remote then t.REMOTE_CONCURRENT_SIZE
          else t.LOCAL_CONCURRENT_SIZE) ≠ 0) :
    (processInJobs t s ids is_remote).total_items = 0 ∧
      (processInJobs t s ids is_remote).batch_total = 0 ∧
      (processInJobs t s ids is_remote).batch_completed = 0 ∧
      (processInJobs t s ids is_remote).items_processed = ids.length := by
  rw [processInJobs_eq]
  exact ⟨rfl, rfl, rfl, getSplitedId_sum_length ids _ h⟩

theorem processInJobs_reset_counters_witness :
    (processInJobs defaultTaskConfig MirroringStatus.default [1, 2, 3, 4, 5]
        true).total_items = 0 ∧
      (processInJobs defaultTaskConfig MirroringStatus.default [1, 2, 3, 4, 5]
        true).batch_total = 0 ∧
      (processInJobs defaultTaskConfig MirroringStatus.default [1, 2, 3, 4, 5]
        true).batch_completed = 0 ∧
      (processInJobs defaultTaskConfig MirroringStatus.default [1, 2, 3, 4, 5]
        true).items_processed = [1, 2, 3, 4, 5].length :=
  processInJobs_reset_counters defaultTaskConfig MirroringStatus.default
    [1, 2, 3, 4, 5] true (by decide)

/-- C3 counterexample: after `process_in_jobs((1,2,3,4,5), worker, remote)`
returns, `items_processed` is 5, not 0 — the claim that it is reset to 0 at
the end of each pipeline run is false (this is exactly what
`test_process_in_jobs_remote` asserts). -/
theorem processInJobs_items_processed_counterexample :
    ¬ ((processInJobs defaultTaskConfig MirroringStatus.default [1, 2, 3, 4, 5]
        true).items_processed = 0) := by
  decide

/-- C4: for an id whose upstream record structurally differs from the local
record, `_integrity_check` logs a warning and performs exactly the four store
operations delete-relational, delete-document, create-relational (with the
preprocessed upstream record), create-document (with the derived `Info`), in
that fixed order; when the records are structurally equal nothing is done. -/
theorem integrityCheck_repair_sequence (env : IntegrityEnv) (skip : List Nat)
    (id : Nat) (g : Galleryinfo) (h : env.remoteFetch id = .ok g) :
    ({ g with id := id } ≠ env.localGet id →
      integrityCheckOne env skip id =
        (skip,
          [StoreOp.warn id, StoreOp.deleteRelational id,
           StoreOp.deleteDocument id,
           StoreOp.createRelational { g with id := id },
           StoreOp.createDocument
             (Info.from_galleryinfo { g with id := id })])) ∧
      ({ g with id := id } = env.localGet id →
        integrityCheckOne env skip id = (skip, [])) := by
  have hp : preprocess env.remoteFetch id = .ok { g with id := id } := by
    simp [preprocess, h]
  constructor
  · intro hne
    simp [integrityCheckOne, hp, hne]
  · intro heq
    simp [integrityCheckOne, hp, heq]

theorem integrityCheck_repair_sequence_witness :
    ((⟨7, "new"⟩ : Galleryinfo) ≠
        IntegrityEnv.localGet ⟨fun _ => .ok ⟨9, "new"⟩, fun _ => ⟨7, "old"⟩⟩ 7 →
      integrityCheckOne ⟨fun _ => .ok ⟨9, "new"⟩, fun _ => ⟨7, "old"⟩⟩ [] 7 =
        ([],
          [StoreOp.warn 7, StoreOp.deleteRelational 7, StoreOp.deleteDocument 7,
           StoreOp.createRelational ⟨7, "new"⟩,
           StoreOp.createDocument (Info.from_galleryinfo ⟨7, "new"⟩)])) ∧
      ((⟨7, "new"⟩ : Galleryinfo) =
          IntegrityEnv.localGet ⟨fun _ => .ok ⟨9, "new"⟩, fun _ => ⟨7, "old"⟩⟩ 7 →
        integrityCheckOne ⟨fun _ => .ok ⟨9, "new"⟩, fun _ => ⟨7, "old"⟩⟩ [] 7 =
          ([], [])) :=
  integrityCheck_repair_sequence ⟨fun _ => .ok ⟨9, "new"⟩, fun _ => ⟨7, "old"⟩⟩
    [] 7 ⟨9, "new"⟩ rfl

theorem integrityCheck_mem_skip (env : IntegrityEnv) (id : Nat) (e : GError)
    (h : env.remoteFetch id = .error e) :
    ∀ ids skip : List Nat, id ∈ ids → id ∈ (integrityCheck env skip ids).1 := by
  intro ids
  induction ids with
  | nil => intro skip hmem; simp at hmem
  | cons i rest ih =>
      intro skip hmem
      simp only [integrityCheck]
      rcases List.mem_cons.mp hmem with hEq | hTail
      · subst hEq
        have hone : integrityCheckOne env skip id =
            (addSkip skip id, [StoreOp.warn id]) := by
          simp [integrityCheckOne, preprocess, h]
        rw [hone]
        exact integrityCheck_skip_mono env rest _ id (addSkip_self skip id)
      · exact ih _ hTail

/-- C5: for an id whose upstream fetch reports `GalleryinfoNotFound`,
`_integrity_check` adds the id to the skip-list, logs a warning, performs no
store mutation for that id, and keeps processing the remaining ids instead of
propagating the error; any run whose id list contains the id ends with the id
in the skip-list. -/
theorem integrityCheck_not_found_skips (env : IntegrityEnv) (skip : List Nat)
    (id : Nat) (e : GError) (rest ids : List Nat)
    (h : env.remoteFetch id = .error e) :
    integrityCheckOne env skip id = (addSkip skip id, [StoreOp.warn id]) ∧
      (∀ op ∈ (integrityCheckOne env skip id).2, op.isMutation = false) ∧
      id ∈ (integrityCheckOne env skip id).1 ∧
      (id ∈ ids → id ∈ (integrityCheck env skip ids).1) ∧
      integrityCheck env skip (id :: rest) =
        ((integrityCheck env (addSkip skip id) rest).1,
          StoreOp.warn id :: (integrityCheck env (addSkip skip id) rest).2) := by
  have hone : integrityCheckOne env skip id = (addSkip skip id, [StoreOp.warn id]) := by
    simp [integrityCheckOne, preprocess, h]
  refine ⟨hone, ?_, ?_, ?_, ?_⟩
  · intro op hop
    rw [hone] at hop
    simp at hop
    simp [hop, StoreOp.isMutation]
  · rw [hone]
    exact addSkip_self skip id
  · exact integrityCheck_mem_skip env id e h ids skip
  · simp [integrityCheck, hone]

theorem integrityCheck_not_found_skips_witness :
    integrityCheckOne
        ⟨fun _ => .error (.galleryinfoNotFound "x"), fun _ => ⟨0, ""⟩⟩ [] 1 =
        (addSkip [] 1, [StoreOp.warn 1]) ∧
      (∀ op ∈ (integrityCheckOne
          ⟨fun _ => .error (.galleryinfoNotFound "x"), fun _ => ⟨0, ""⟩⟩ [] 1).2,
        op.isMutation = false) ∧
      1 ∈ (integrityCheckOne
        ⟨fun _ => .error (.galleryinfoNotFound "x"), fun _ => ⟨0, ""⟩⟩ [] 1).1 ∧
      (1 ∈ [1, 2] → 1 ∈ (integrityCheck
        ⟨fun _ => .error (.galleryinfoNotFound "x"), fun _ => ⟨0, ""⟩⟩ [] [1, 2]).1) ∧
      integrityCheck
          ⟨fun _ => .error (.galleryinfoNotFound "x"), fun _ => ⟨0, ""⟩⟩ [] [1, 2] =
        ((integrityCheck
            ⟨fun _ => .error (.galleryinfoNotFound "x"), fun _ => ⟨0, ""⟩⟩
            (addSkip [] 1) [2]).1,
          StoreOp.warn 1 :: (integrityCheck
            ⟨fun _ => .error (.galleryinfoNotFound "x"), fun _ => ⟨0, ""⟩⟩
            (addSkip [] 1) [2]).2) :=
  integrityCheck_not_found_skips
    ⟨fun _ => .error (.galleryinfoNotFound "x"), fun _ => ⟨0, ""⟩⟩ [] 1
    (.galleryinfoNotFound "x") [2] [1, 2] rfl

/-- C6: when the pipeline run of a partial-integrity-check iteration raises an
unhandled error, the skip-list is emptied before the error surfaces out of
the driver tick: after such a failed iteration `skip_ids` is the empty set. -/
theorem partial_check_error_clears_skip_ids (env : DriverEnv) (st : EngineState)
    (e : PErr)
    (hg1 : st.status.is_mirroring_galleryinfo = false)
    (hg2 : st.status.is_converting_to_info = false)
    (he : env.pipelineResult = .error e) :
    (partialIntegrityTick env st).1.skip_ids = [] ∧
      (partialIntegrityTick env st).2 = true := by
  unfold partialIntegrityTick performPartialIntegrityCheck
  simp [hg1, hg2, he]

theorem partial_check_error_clears_skip_ids_witness :
    (partialIntegrityTick
        ⟨[], [], [1, 2], "t", ⟨fun _ => .ok ⟨0, ""⟩, fun _ => ⟨0, ""⟩⟩,
          .error ⟨"boom"⟩⟩
        ⟨MirroringStatus.default, [1, 2]⟩).1.skip_ids = [] ∧
      (partialIntegrityTick
        ⟨[], [], [1, 2], "t", ⟨fun _ => .ok ⟨0, ""⟩, fun _ => ⟨0, ""⟩⟩,
          .error ⟨"boom"⟩⟩
        ⟨MirroringStatus.default, [1, 2]⟩).2 = true :=
  partial_check_error_clears_skip_ids
    ⟨[], [], [1, 2], "t", ⟨fun _ => .ok ⟨0, ""⟩, fun _ => ⟨0, ""⟩⟩,
      .error ⟨"boom"⟩⟩
    ⟨MirroringStatus.default, [1, 2]⟩ ⟨"boom"⟩ rfl rfl rfl

/-- C7: the periodic drivers never run their body against a conflicting
phase: a mirror-driver tick with `is_checking_integrity` set leaves the state
unchanged and does not invoke `perform_mirroring`, and a
partial-integrity-driver tick with `is_mirroring_galleryinfo` or
`is_converting_to_info` set leaves the state unchanged and does not run the
integrity pipeline. -/
theorem driver_gating (t : TaskConfig) (env : DriverEnv) (st st2 : EngineState) :
    (st.status.is_checking_integrity = true →
      mirroringTick t env st = (st, false)) ∧
      ((st2.status.is_mirroring_galleryinfo = true ∨
          st2.status.is_converting_to_info = true) →
        partialIntegrityTick env st2 = (st2, false)) := by
  constructor
  · intro h
    simp [mirroringTick, h]
  · intro h
    unfold partialIntegrityTick
    rcases h with h | h <;> simp [h]

/-- C8: in a `perform_mirroring` iteration `last_mirrored_at` is set to the
current timestamp exactly when `local_diff` is non-empty and is left
unchanged when `local_diff` is empty (even if remote fetches occurred), and
no other status field depends on it: changing the incoming
`last_mirrored_at` changes nothing else in the resulting status. -/
theorem performMirroring_last_mirrored_at (t : TaskConfig) (s : MirroringStatus)
    (rd ld : List Nat) (nowT : String) :
    (performMirroring t s rd ld nowT).1.last_mirrored_at =
        (if ld.isEmpty then s.last_mirrored_at else nowT) ∧
      ∀ m : String,
        (performMirroring t { s with last_mirrored_at := m } rd ld nowT).1 =
          { (performMirroring t s rd ld nowT).1 with
            last_mirrored_at := if ld.isEmpty then m else nowT } := by
  constructor
  · cases hrd : rd.isEmpty <;> cases hld : ld.isEmpty <;>
      simp [performMirroring, processInJobs_eq, hrd, hld]
  · intro m
    cases hrd : rd.isEmpty <;> cases hld : ld.isEmpty <;>
      simp [performMirroring, processInJobs_eq, hrd, hld]

/-- C9: `_get_differences(A, B)` returns exactly the set difference
`set(A) \ set(B)`: an identifier is in the result exactly when the source
yields it and the target does not, and an empty source gives the empty
tuple. -/
theorem getDifferences_spec (a b : List Nat) :
    (∀ x : Nat, x ∈ getDifferences a b ↔ x ∈ a ∧ x ∉ b) ∧
      getDifferences [] b = [] := by
  constructor
  · intro x
    simp [getDifferences, List.mem_filter]
  · simp [getDifferences]

/-- C10: in `startup`, `DISABLE_INTEGRITY_CHECK` is a master switch over both
integrity drivers: the partial (resp. full) integrity task is registered
exactly when the server is not in test mode, `DISABLE_INTEGRITY_CHECK` is
false, and the task's individual disable flag is false — so when
`DISABLE_INTEGRITY_CHECK` is true neither is registered, whatever the
individual flags say. -/
theorem startup_integrity_master_switch (tm : Bool) (cfg : SunflowerConfig) :
    (TaskName.partialIntegrityCheck ∈ startupRegisteredTasks tm cfg ↔
        tm = false ∧ cfg.DISABLE_INTEGRITY_CHECK = false ∧
          cfg.DISABLE_INTEGRITY_PARTIAL_CHECK = false) ∧
      (TaskName.fullIntegrityCheck ∈ startupRegisteredTasks tm cfg ↔
        tm = false ∧ cfg.DISABLE_INTEGRITY_CHECK = false ∧
          cfg.DISABLE_INTEGRITY_FULL_CHECK = false) := by
  obtain ⟨m, ic, ip, ifull⟩ := cfg
  cases tm <;> cases m <;> cases ic <;> cases ip <;> cases ifull <;> decide
